import Mathlib

/-
Formal model of the tax calculation engine in tax.py (ruilov/tax_decompose).

Python Decimal values are modelled as exact rationals (ℚ): the engine only
ever adds, subtracts, multiplies, divides and quantizes Decimals, all of
which are exact rational operations.  Exceptions raised by the Python code
are modelled with Except over a structured error type carrying the same
diagnostic payload that the Python error messages interpolate.
-/

namespace Tax

/-- Errors raised by the engine.  Each constructor carries the data that the
corresponding Python ValueError message interpolates. -/
inductive TaxError where
  | missingRequiredInput (tag : String)
  | belowWorksheetMinimum (min_income income : ℚ)
  | noMatchingBracket (income : ℚ)
  | invalidDelta
deriving DecidableEq

/-- Model of tax.py round_to_dollars (lines 15-27): Decimal.quantize(1,
ROUND_HALF_UP), i.e. round to the nearest integer with ties away from zero
(0.5 rounds up in magnitude). -/
def round_to_dollars (amount : ℚ) : ℚ :=
  if 0 ≤ amount then ((⌊amount + 1/2⌋ : ℤ) : ℚ)
  else -((⌊-amount + 1/2⌋ : ℤ) : ℚ)

/-- Model of one financial fact record.  The Path and Explanation fields of
the JSON records have no computational effect (spec section 3) and are
omitted; Amount is modelled already parsed as an exact rational. -/
structure FinancialFactItem where
  amount : ℚ
  tags : List String
deriving DecidableEq

/-- Fact collections arrive as a mapping source-name to list of facts
(tax.py build_inputs_index accepts a dict or a flat list). -/
abbrev InputsBySource := List (String × List FinancialFactItem)

/-- Flattening step of build_inputs_index (tax.py lines 42-45): a dict input
iterates all items of all sources in order. -/
def flattenInputs (inputs : InputsBySource) : List FinancialFactItem :=
  inputs.flatMap (fun sl => sl.2)

/-- Tag bucket of build_inputs_index (tax.py lines 46-48): every item is
appended to by_tag once per occurrence of the tag in its Tags list (a
repeated tag appends the item repeatedly). -/
def tagBucket (facts : List FinancialFactItem) (tag : String) : List FinancialFactItem :=
  facts.flatMap (fun f => (f.tags.filter (fun t => t = tag)).map (fun _ => f))

/-- Exact sum of the amounts in a tag bucket (tax.py line 66, the
round_each=False branch of tag_total). -/
def tag_sum (facts : List FinancialFactItem) (tag : String) : ℚ :=
  ((tagBucket facts tag).map FinancialFactItem.amount).sum

/-- Per-item-rounded sum (tax.py lines 62-65, the round_each=True branch of
tag_total). -/
def tag_sum_rounded (facts : List FinancialFactItem) (tag : String) : ℚ :=
  ((tagBucket facts tag).map (fun f => round_to_dollars f.amount)).sum

/-- Model of tax.py tag_total (lines 52-66): fails when required is set and
the bucket is empty, otherwise sums the bucket (item-rounded first when
round_each is set). -/
def tag_total (facts : List FinancialFactItem) (tag : String)
    (required round_each : Bool) : Except TaxError ℚ :=
  if required && (tagBucket facts tag).isEmpty then
    .error (.missingRequiredInput tag)
  else
    .ok (if round_each then tag_sum_rounded facts tag else tag_sum facts tag)

/-- Model of tax.py federal_form_1040_line_11_adjusted_gross_income
(lines 1407-1428): line 9 minus line 10 (Schedule 1 line 26). -/
def federal_form_1040_line_11_adjusted_gross_income
    (line_9_total_income : ℚ) (line_10_adjustments_to_income : ℚ) : ℚ :=
  line_9_total_income - line_10_adjustments_to_income

/-- Model of the Form 1040 line 11 step of compute_federal_total_tax
(tax.py lines 3856-3865).  The pipeline's derived inputs
line_9_total_income and line_26_adjustments are taken as parameters; the
override lookup is tag_total with required=False and round_each=False,
which is exactly tag_sum (lemma tag_total_not_required below). -/
def compute_federal_line_11_agi (facts : List FinancialFactItem)
    (line_9_total_income line_26_adjustments : ℚ) : ℚ :=
  let line_11_agi_override := tag_sum facts "form_1040_line_11_adjusted_gross_income"
  if line_11_agi_override ≠ 0 then
    round_to_dollars line_11_agi_override
  else
    federal_form_1040_line_11_adjusted_gross_income line_9_total_income line_26_adjustments

/-- Policy substructure policy['self_employment_tax'] (spec section 6). -/
structure SelfEmploymentTaxPolicy where
  earnings_factor : ℚ
  social_security_wage_base : ℚ
  social_security_rate : ℚ
  medicare_rate : ℚ

/-- Model of tax.py federal_schedule_se_line_6_total_se_earnings
(lines 138-175): multiply by the 0.9235 earnings factor and round only for
strictly positive line-2 profit; otherwise pass line 2 through unchanged. -/
def federal_schedule_se_line_6_total_se_earnings
    (line_2_schedule_c_and_k1_profit : ℚ) (policy : SelfEmploymentTaxPolicy) : ℚ :=
  if 0 < line_2_schedule_c_and_k1_profit then
    round_to_dollars (line_2_schedule_c_and_k1_profit * policy.earnings_factor)
  else
    line_2_schedule_c_and_k1_profit

/-- Model of tax.py federal_schedule_se_line_10_social_security_tax
(lines 178-207): min(line 6, wage base) times the rate, rounded. -/
def federal_schedule_se_line_10_social_security_tax
    (line_6_self_employment_earnings : ℚ) (policy : SelfEmploymentTaxPolicy) : ℚ :=
  round_to_dollars
    (min line_6_self_employment_earnings policy.social_security_wage_base
      * policy.social_security_rate)

/-- Model of tax.py federal_schedule_se_line_11_medicare_tax
(lines 210-236): line 6 times the Medicare rate, rounded; no cap. -/
def federal_schedule_se_line_11_medicare_tax
    (line_6_self_employment_earnings : ℚ) (policy : SelfEmploymentTaxPolicy) : ℚ :=
  round_to_dollars (line_6_self_employment_earnings * policy.medicare_rate)

/-- Policy substructure policy['additional_medicare_tax'] (spec section 6). -/
structure AdditionalMedicareTaxPolicy where
  rate : ℚ
  threshold : ℚ

/-- Part I tax of Form 8959 (tax.py lines 306-308): W-2 Medicare wages over
the threshold, floored at zero, times the rate, rounded. -/
def form_8959_part1_tax (w2_medicare_wages : ℚ) (policy : AdditionalMedicareTaxPolicy) : ℚ :=
  round_to_dollars (max 0 (w2_medicare_wages - policy.threshold) * policy.rate)

/-- Remaining threshold after W-2 wages (tax.py line 312). -/
def form_8959_remaining_threshold (w2_medicare_wages : ℚ)
    (policy : AdditionalMedicareTaxPolicy) : ℚ :=
  max 0 (policy.threshold - w2_medicare_wages)

/-- Part II tax of Form 8959 (tax.py lines 313-314): SE earnings over the
remaining threshold, floored at zero, times the rate, rounded. -/
def form_8959_part2_tax (w2_medicare_wages schedule_se_line_6_se_earnings : ℚ)
    (policy : AdditionalMedicareTaxPolicy) : ℚ :=
  round_to_dollars
    (max 0 (schedule_se_line_6_se_earnings - form_8959_remaining_threshold w2_medicare_wages policy)
      * policy.rate)

/-- Model of tax.py federal_form_8959_line_18_additional_medicare_tax
(lines 263-320): Part I plus Part II plus Part III (RRTA, assumed 0). -/
def federal_form_8959_line_18_additional_medicare_tax
    (w2_medicare_wages schedule_se_line_6_se_earnings : ℚ)
    (policy : AdditionalMedicareTaxPolicy) : ℚ :=
  form_8959_part1_tax w2_medicare_wages policy
    + form_8959_part2_tax w2_medicare_wages schedule_se_line_6_se_earnings policy
    + 0

/-- One row of policy['tax_computation_worksheet']['sections']: a null max
means unbounded above. -/
structure WorksheetRow where
  min : ℚ
  max : Option ℚ
  rate : ℚ
  subtract_amount : ℚ
deriving DecidableEq

/-- Substructure policy['tax_computation_worksheet']. -/
structure TaxComputationWorksheet where
  min_income : ℚ
  sections : List WorksheetRow

/-- Row-matching test of the worksheet loop (tax.py line 1578):
taxable_income >= row.min and (row.max is None or taxable_income <= row.max). -/
def wsRowMatches (income : ℚ) (row : WorksheetRow) : Bool :=
  decide (row.min ≤ income) &&
    (match row.max with
     | none => true
     | some m => decide (income ≤ m))

/-- The for-loop of federal_form_1040_tax_computation_worksheet_tax
(tax.py lines 1573-1584): first matching row wins; falling off the end
raises the no-matching-row error carrying the income. -/
def wsLookup (income : ℚ) : List WorksheetRow → Except TaxError ℚ
  | [] => .error (.noMatchingBracket income)
  | row :: rest =>
    if wsRowMatches income row then
      .ok (round_to_dollars (income * row.rate - row.subtract_amount))
    else
      wsLookup income rest

/-- Model of tax.py federal_form_1040_tax_computation_worksheet_tax
(lines 1543-1584): a hard stop below min_income, then the first-match scan
of the sections. -/
def federal_form_1040_tax_computation_worksheet_tax
    (taxable_income : ℚ) (worksheet : TaxComputationWorksheet) : Except TaxError ℚ :=
  if taxable_income < worksheet.min_income then
    .error (.belowWorksheetMinimum worksheet.min_income taxable_income)
  else
    wsLookup taxable_income worksheet.sections

/-- One row of a base-tax-plus-rate schedule
(policy['ny_nys_tax_rate_schedule'] / policy['nyc_resident_tax_rate_schedule']). -/
structure RateScheduleRow where
  min : ℚ
  max : Option ℚ
  base_tax : ℚ
  rate : ℚ
deriving DecidableEq

/-- Row-matching test of the NY schedule loops (tax.py lines 1833 and 3070). -/
def rsRowMatches (income : ℚ) (row : RateScheduleRow) : Bool :=
  decide (row.min ≤ income) &&
    (match row.max with
     | none => true
     | some m => decide (income ≤ m))

/-- The identical for-loops of ny_it201_statement_2_line_3_tax_from_rate_schedule
(tax.py lines 1828-1839) and ny_it201_line_47a_nyc_resident_tax
(lines 3065-3076): first matching row yields base_tax plus
(income - row.min) times rate, rounded; falling off the end raises the
no-matching-row error carrying the scanned income. -/
def rateScheduleScan (income : ℚ) : List RateScheduleRow → Except TaxError ℚ
  | [] => .error (.noMatchingBracket income)
  | row :: rest =>
    if rsRowMatches income row then
      .ok (round_to_dollars (row.base_tax + (income - row.min) * row.rate))
    else
      rateScheduleScan income rest

/-- Model of tax.py ny_it201_statement_2_line_3_tax_from_rate_schedule
(lines 1805-1839): the income is first clamped at zero (line 1826), then
the schedule is scanned.  The schedule list stands for
policy['ny_nys_tax_rate_schedule']. -/
def ny_it201_statement_2_line_3_tax_from_rate_schedule
    (line_38_ny_taxable_income : ℚ)
    (ny_nys_tax_rate_schedule : List RateScheduleRow) : Except TaxError ℚ :=
  rateScheduleScan (max line_38_ny_taxable_income 0) ny_nys_tax_rate_schedule

/-- Model of tax.py ny_it201_line_47a_nyc_resident_tax (lines 3042-3076):
the income is first clamped at zero (line 3063), then the schedule is
scanned.  The schedule list stands for policy['nyc_resident_tax_rate_schedule']. -/
def ny_it201_line_47a_nyc_resident_tax
    (line_47_nyc_taxable_income : ℚ)
    (nyc_resident_tax_rate_schedule : List RateScheduleRow) : Except TaxError ℚ :=
  rateScheduleScan (max line_47_nyc_taxable_income 0) nyc_resident_tax_rate_schedule

/-- Model of tax.py ny_it201_line_38_ny_taxable_income (lines 2076-2097):
line 35 minus line 36, exactly. -/
def ny_it201_line_38_ny_taxable_income
    (line_35_ny_taxable_income_before_exemptions line_36_dependent_exemptions : ℚ) : ℚ :=
  line_35_ny_taxable_income_before_exemptions - line_36_dependent_exemptions

/-- Model of tax.py ny_it201_line_36_dependent_exemptions (lines 2518-2539):
dependents count times policy['ny_dependent_exemption_amount'], exactly. -/
def ny_it201_line_36_dependent_exemptions
    (dependents_count ny_dependent_exemption_amount : ℚ) : ℚ :=
  dependents_count * ny_dependent_exemption_amount

/-- Model of the expected-value tree consumed by the compute-check
instrumentation: a nested string-keyed mapping; any non-dict node is a leaf
whose payload is the value of Decimal(str(node)) if that parses and none
otherwise (tax.py lines 97-100 swallow the parse failure). -/
inductive ExpTree where
  | leaf (value : Option ℚ)
  | node (entries : List (String × ExpTree))

/-- Model of the process-wide compute-check globals
_COMPUTE_CHECKS_ENABLED / _COMPUTE_CHECKS_EXPECTED / _COMPUTE_CHECKS_CONTEXT
(tax.py lines 10-12). -/
structure ComputeChecksState where
  enabled : Bool
  expected : Option ExpTree
  context : Option String

/-- Model of tax.py set_compute_checks_mode (lines 69-85): disabling also
clears the expected tree and the context. -/
def set_compute_checks_mode (enabled : Bool) (expected_values : Option ExpTree)
    (context : Option String) : ComputeChecksState :=
  ⟨enabled, if enabled then expected_values else none,
    if enabled then context else none⟩

/-- The path walk of _expected_decimal_for_path (tax.py lines 92-100): the
path is given as its dot-separated key components; descending stops with
none as soon as the current node is not a dict or lacks the key, and a walk
ending on a dict node yields none (Decimal(str(dict)) raises, caught at
line 99). -/
def walkPath : List String → ExpTree → Option ℚ
  | [], .leaf value => value
  | [], .node _ => none
  | _ :: _, .leaf _ => none
  | key :: rest, .node entries =>
    match entries.lookup key with
    | none => none
    | some child => walkPath rest child

/-- Model of tax.py _expected_decimal_for_path (lines 88-100). -/
def _expected_decimal_for_path (st : ComputeChecksState) (path : List String) : Option ℚ :=
  match st.enabled, st.expected with
  | false, _ => none
  | true, none => none
  | true, some tree => walkPath path tree

/-- Payload of the AssertionError raised by _check_compute_line
(tax.py line 109). -/
structure ComputeCheckMismatch where
  context : Option String
  path : List String
  expected : ℚ
  actual : ℚ

/-- The message of the AssertionError (tax.py lines 108-109): a bracketed
context label when the context is truthy (neither None nor empty), then the
path, the expected value and the actual value. -/
def mismatchMessage (e : ComputeCheckMismatch) : String :=
  (match e.context with
   | some c => if c = "" then "" else "[" ++ c ++ "] "
   | none => "")
  ++ String.intercalate "." e.path
  ++ ": expected " ++ toString e.expected ++ ", got " ++ toString e.actual

/-- Model of tax.py _check_compute_line (lines 103-109): silently succeeds
when the path resolves to no expected value, otherwise raises exactly when
the actual value differs from the expected value. -/
def _check_compute_line (st : ComputeChecksState) (path : List String)
    (actual : ℚ) : Except ComputeCheckMismatch Unit :=
  match _expected_decimal_for_path st path with
  | none => .ok ()
  | some expected =>
    if actual ≠ expected then
      .error ⟨st.context, path, expected, actual⟩
    else
      .ok ()

/-- One output row of the marginal reporters, keeping the numeric content of
the pipe-delimited table (rendering is out of scope, spec section 1):
marginal federal rate, per-state marginal rates, marginal total. -/
abbrev MarginalRow := ℚ × List ℚ × ℚ

/-- A top-level pipeline as consumed by the marginal reporter: inputs and
policy to a total, or a propagated error.  compute_federal_total_tax and
the per-state totals of _marginal_state_totals have this shape; the policy
type is opaque here. -/
abbrev Pipeline (P : Type) := InputsBySource → P → Except TaxError ℚ

/-- Model of tax.py _compute_marginals (lines 4401-4415): symmetric
difference quotients of the federal pipeline and each state pipeline, plus
their sum.  Pipeline errors propagate unmodified. -/
def _compute_marginals {P : Type} (compute_federal : Pipeline P)
    (state_totals : List (Pipeline P)) (plus_inputs minus_inputs : InputsBySource)
    (policy : P) (delta : ℚ) : Except TaxError MarginalRow := do
  let federal_plus ← compute_federal plus_inputs policy
  let federal_minus ← compute_federal minus_inputs policy
  let marginal_federal := (federal_plus - federal_minus) / (delta * 2)
  let state_marginals ← state_totals.mapM (fun state_total => do
    let state_plus ← state_total plus_inputs policy
    let state_minus ← state_total minus_inputs policy
    pure ((state_plus - state_minus) / (delta * 2)))
  pure (marginal_federal, state_marginals, marginal_federal + state_marginals.sum)

/-- The perturbation of marginal_rate_table_by_input (tax.py lines 4455-4458):
replace the amount of the fact at position i of the given source, leaving
everything else untouched (the Python code deep-copies and then mutates that
one entry). -/
def setFactAmount (inputs : InputsBySource) (source : String) (i : Nat)
    (amount : ℚ) : InputsBySource :=
  inputs.map (fun sl =>
    if sl.1 = source then
      (sl.1, sl.2.enum.map (fun ji => if ji.1 = i then ⟨amount, ji.2.tags⟩ else ji.2))
    else sl)

/-- The main loop of marginal_rate_table_by_input (tax.py lines 4434-4474):
for every fact, perturb its amount by plus delta and by minus delta and
compute the marginal row.  The Amount fields are modelled already parsed,
so the blank-row branch for unparseable amounts (lines 4446-4453) has no
counterpart here. -/
def marginal_by_input_rows {P : Type} (compute_federal : Pipeline P)
    (state_totals : List (Pipeline P)) (inputs : InputsBySource) (policy : P)
    (delta : ℚ) : Except TaxError (List MarginalRow) := do
  let per_source ← inputs.mapM (fun sl =>
    sl.2.enum.mapM (fun ii => do
      let plus_inputs := setFactAmount inputs sl.1 ii.1 (ii.2.amount + delta)
      let minus_inputs := setFactAmount inputs sl.1 ii.1 (ii.2.amount - delta)
      _compute_marginals compute_federal state_totals plus_inputs minus_inputs policy delta))
  pure per_source.flatten

/-- Model of tax.py marginal_rate_table_by_input (lines 4418-4476): the
strictly-positive delta validation (lines 4425-4426) runs before anything
else; only then does the per-fact loop run. -/
def marginal_rate_table_by_input {P : Type} (compute_federal : Pipeline P)
    (state_totals : List (Pipeline P)) (inputs : InputsBySource) (policy : P)
    (delta : ℚ) : Except TaxError (List MarginalRow) :=
  if delta ≤ 0 then .error .invalidDelta
  else marginal_by_input_rows compute_federal state_totals inputs policy delta

/-- The distinct tags of the input collection, as gathered by the
tagged_items pass of marginal_rate_table_by_tag (tax.py lines 4495-4511).
Python iterates them in sorted key order; the ordering plays no part in the
properties proved here. -/
def collectTags (inputs : InputsBySource) : List String :=
  ((flattenInputs inputs).flatMap (fun f => f.tags)).dedup

/-- The synthetic one-tag shock row injected by marginal_rate_table_by_tag
(tax.py lines 4549-4567) under a fresh source key. -/
def shockInputs (inputs : InputsBySource) (tag : String) (amount : ℚ) : InputsBySource :=
  inputs ++ [("__MARGINAL_SHOCK__", [⟨amount, [tag]⟩])]

/-- The main loop of marginal_rate_table_by_tag (tax.py lines 4513-4576):
for every distinct tag, inject a synthetic plus-delta row and a synthetic
minus-delta row and compute the marginal row.  With amounts modelled as
parsed rationals, every tag has numeric records, so the blank-row branch
(lines 4537-4542) has no counterpart here. -/
def marginal_by_tag_rows {P : Type} (compute_federal : Pipeline P)
    (state_totals : List (Pipeline P)) (inputs : InputsBySource) (policy : P)
    (delta : ℚ) : Except TaxError (List MarginalRow) :=
  (collectTags inputs).mapM (fun tag =>
    _compute_marginals compute_federal state_totals
      (shockInputs inputs tag delta) (shockInputs inputs tag (-delta)) policy delta)

/-- Model of tax.py marginal_rate_table_by_tag (lines 4479-4578): the
strictly-positive delta validation (lines 4486-4487) runs before anything
else; only then does the per-tag loop run. -/
def marginal_rate_table_by_tag {P : Type} (compute_federal : Pipeline P)
    (state_totals : List (Pipeline P)) (inputs : InputsBySource) (policy : P)
    (delta : ℚ) : Except TaxError (List MarginalRow) :=
  if delta ≤ 0 then .error .invalidDelta
  else marginal_by_tag_rows compute_federal state_totals inputs policy delta

/-- Well-formedness of a worksheet section list against a lower income bound
(the PolicyConfig invariant of spec section 3): the first row starts exactly
at the bound, each bounded row's max is strictly above its min and equals
the next row's min (contiguous, mins strictly ascending), and the final row
is unbounded, so the rows cover the interval from the bound upward with no
gaps. -/
inductive WsCovers : ℚ → List WorksheetRow → Prop where
  | last (lo : ℚ) (row : WorksheetRow)
      (hmin : row.min = lo) (hmax : row.max = none) : WsCovers lo [row]
  | cons (lo m : ℚ) (row next : WorksheetRow) (rest : List WorksheetRow)
      (hmin : row.min = lo) (hmax : row.max = some m) (hlt : lo < m)
      (hnext : next.min = m) (htail : WsCovers m (next :: rest)) :
      WsCovers lo (row :: next :: rest)

/-- Concrete fact list exercising the line-11 AGI override. -/
def exOverrideFacts : List FinancialFactItem :=
  [⟨201/2, ["form_1040_line_11_adjusted_gross_income"]⟩]

/-- Concrete two-row tax computation worksheet (10 percent up to 50, then
20 percent above, subtracting 5 to stay continuous). -/
def exWorksheet : TaxComputationWorksheet :=
  ⟨0, [⟨0, some 50, 1/10, 0⟩, ⟨50, none, 1/5, 5⟩]⟩

/-- Concrete additional-Medicare-tax policy (0.9 percent above 200000). -/
def exAmtPolicy : AdditionalMedicareTaxPolicy := ⟨9/1000, 200000⟩

/-- Concrete self-employment-tax policy with the 2024 constants. -/
def exSePolicy : SelfEmploymentTaxPolicy :=
  ⟨9235/10000, 168600, 124/1000, 29/1000⟩

/-- Concrete one-row schedule covering all incomes from zero upward. -/
def exFullSchedule : List RateScheduleRow := [⟨0, none, 0, 1/10⟩]

/-- Concrete expected-value tree holding one recorded line value. -/
def exTree : ExpTree :=
  .node [("federal", .node [("form_1040", .node [("line_24_total_tax", .leaf (some 5))])])]

/-- Concrete enabled compute-check state over exTree. -/
def exState : ComputeChecksState :=
  set_compute_checks_mode true (some exTree) (some "2024")

/-- Concrete dotted path into exTree, as its key components. -/
def exPath : List String := ["federal", "form_1040", "line_24_total_tax"]

/-- Trivial pipeline used to instantiate the marginal reporters on concrete
arguments. -/
def zeroPipeline : Pipeline Unit := fun _ _ => .ok 0

/-- Helper: round_to_dollars fixes integers. -/
theorem round_to_dollars_intCast (n : ℤ) : round_to_dollars (n : ℚ) = n := by
  unfold round_to_dollars
  split
  · have h1 : ((n : ℚ) + 1/2) = 1/2 + (n : ℚ) := by ring
    rw [h1, Int.floor_add_int]
    norm_num
  · have h2 : (-(n : ℚ) + 1/2) = 1/2 + ((-n : ℤ) : ℚ) := by push_cast; ring
    rw [h2, Int.floor_add_int]
    push_cast
    norm_num

/-- Helper: round_to_dollars always returns an integer value. -/
theorem round_to_dollars_exists_int (x : ℚ) : ∃ n : ℤ, round_to_dollars x = n := by
  unfold round_to_dollars
  split
  · exact ⟨⌊x + 1/2⌋, rfl⟩
  · exact ⟨-⌊-x + 1/2⌋, by push_cast; ring⟩

/-- Helper: round_to_dollars is monotone. -/
theorem round_to_dollars_mono {x y : ℚ} (h : x ≤ y) :
    round_to_dollars x ≤ round_to_dollars y := by
  unfold round_to_dollars
  split <;> split <;> rename_i hx hy
  · exact_mod_cast Int.floor_le_floor (by linarith)
  · exact absurd (le_trans hx h) hy
  · have h1 : (0 : ℤ) ≤ ⌊-x + 1/2⌋ := Int.floor_nonneg.mpr (by linarith [lt_of_not_le hx])
    have h2 : (0 : ℤ) ≤ ⌊y + 1/2⌋ := Int.floor_nonneg.mpr (by linarith)
    have h1q : (0 : ℚ) ≤ (⌊-x + 1/2⌋ : ℤ) := by exact_mod_cast h1
    have h2q : (0 : ℚ) ≤ (⌊y + 1/2⌋ : ℤ) := by exact_mod_cast h2
    linarith
  · have : ⌊-y + 1/2⌋ ≤ ⌊-x + 1/2⌋ := Int.floor_le_floor (by linarith)
    have hq : ((⌊-y + 1/2⌋ : ℤ) : ℚ) ≤ ((⌊-x + 1/2⌋ : ℤ) : ℚ) := by exact_mod_cast this
    linarith

/-- C4: round_to_dollars rounds a positive value with fractional part
exactly one half up to the next larger integer (100.50 to 101, 100.49 down
to 100 — round half up, not banker's rounding), and it is idempotent. -/
theorem round_to_dollars_half_up_and_idem :
    (∀ x : ℚ, 0 < x → x - ⌊x⌋ = 1/2 → round_to_dollars x = (⌊x⌋ : ℚ) + 1)
    ∧ round_to_dollars (201/2) = 101
    ∧ round_to_dollars (10049/100) = 100
    ∧ ∀ x : ℚ, round_to_dollars (round_to_dollars x) = round_to_dollars x := by
  refine ⟨?_, ?_, ?_, ?_⟩
  · intro x hpos hfrac
    have hx : x + 1/2 = ((⌊x⌋ + 1 : ℤ) : ℚ) := by push_cast; linarith
    unfold round_to_dollars
    rw [if_pos (le_of_lt hpos), hx, Int.floor_intCast]
    push_cast
    ring
  · norm_num [round_to_dollars]
  · norm_num [round_to_dollars]
  · intro x
    obtain ⟨n, hn⟩ := round_to_dollars_exists_int x
    rw [hn, round_to_dollars_intCast]

/-- Witness for C4: the half-up clause applied at x = 5/2 gives 3. -/
theorem round_to_dollars_half_up_and_idem_witness :
    round_to_dollars (5/2) = (⌊(5/2 : ℚ)⌋ : ℚ) + 1 :=
  round_to_dollars_half_up_and_idem.1 (5/2) (by norm_num) (by norm_num)

/-- Helper: a tag_total call without required never fails and returns the
plain bucket sum (round_each=False) or the item-rounded sum. -/
theorem tag_total_not_required (facts : List FinancialFactItem) (tag : String)
    (round_each : Bool) :
    tag_total facts tag false round_each =
      .ok (if round_each then tag_sum_rounded facts tag else tag_sum facts tag) := by
  simp [tag_total]

/-- C1: in the Form 1040 line 11 step of compute_federal_total_tax, a
nonzero summed override under the AGI tag yields that sum rounded to whole
dollars, independently of the derived chain inputs; a zero sum (in
particular an empty bucket) falls through to line 9 minus line 26, so a
zero override is indistinguishable from no override. -/
theorem line_11_agi_override_precedence (facts : List FinancialFactItem)
    (line_9_total_income line_26_adjustments : ℚ) :
    (tag_sum facts "form_1040_line_11_adjusted_gross_income" ≠ 0 →
      compute_federal_line_11_agi facts line_9_total_income line_26_adjustments =
        round_to_dollars (tag_sum facts "form_1040_line_11_adjusted_gross_income")
      ∧ ∀ alt_line_9 alt_line_26 : ℚ,
          compute_federal_line_11_agi facts line_9_total_income line_26_adjustments =
            compute_federal_line_11_agi facts alt_line_9 alt_line_26)
    ∧ (tag_sum facts "form_1040_line_11_adjusted_gross_income" = 0 →
      compute_federal_line_11_agi facts line_9_total_income line_26_adjustments =
        federal_form_1040_line_11_adjusted_gross_income line_9_total_income line_26_adjustments
      ∧ compute_federal_line_11_agi facts line_9_total_income line_26_adjustments =
          line_9_total_income - line_26_adjustments)
    ∧ (tagBucket facts "form_1040_line_11_adjusted_gross_income" = [] →
      compute_federal_line_11_agi facts line_9_total_income line_26_adjustments =
        line_9_total_income - line_26_adjustments) := by
  refine ⟨?_, ?_, ?_⟩
  · intro h
    constructor
    · simp [compute_federal_line_11_agi, h]
    · intro a b
      simp [compute_federal_line_11_agi, h]
  · intro h
    constructor
    · simp [compute_federal_line_11_agi, h]
    · simp [compute_federal_line_11_agi, h,
        federal_form_1040_line_11_adjusted_gross_income]
  · intro h
    have hz : tag_sum facts "form_1040_line_11_adjusted_gross_income" = 0 := by
      simp [tag_sum, h]
    simp [compute_federal_line_11_agi, hz,
      federal_form_1040_line_11_adjusted_gross_income]

/-- Witness for C1: a single fact of 100.50 under the override tag makes
line 11 equal the rounded override. -/
theorem line_11_agi_override_precedence_witness :
    compute_federal_line_11_agi exOverrideFacts 7 3 =
      round_to_dollars (tag_sum exOverrideFacts "form_1040_line_11_adjusted_gross_income") :=
  ((line_11_agi_override_precedence exOverrideFacts 7 3).1
    (by norm_num [tag_sum, tagBucket, exOverrideFacts])).1

/-- Helper: a matching head row is taken by the worksheet scan. -/
theorem wsLookup_cons_pos {income : ℚ} {row : WorksheetRow} {rest : List WorksheetRow}
    (h : wsRowMatches income row = true) :
    wsLookup income (row :: rest) =
      .ok (round_to_dollars (income * row.rate - row.subtract_amount)) := by
  simp only [wsLookup, h, if_true]

/-- Helper: a non-matching head row is skipped by the worksheet scan. -/
theorem wsLookup_cons_neg {income : ℚ} {row : WorksheetRow} {rest : List WorksheetRow}
    (h : wsRowMatches income row = false) :
    wsLookup income (row :: rest) = wsLookup income rest := by
  simp only [wsLookup, h]
  rfl

/-- Helper: on a covering section list, every income at or above the lower
bound hits a first matching row, and the scan returns that row's tax. -/
theorem wsLookup_covers {lo : ℚ} {rows : List WorksheetRow} (hcov : WsCovers lo rows) :
    ∀ income : ℚ, lo ≤ income →
      ∃ r, rows.find? (wsRowMatches income) = some r ∧
        wsLookup income rows = .ok (round_to_dollars (income * r.rate - r.subtract_amount)) := by
  induction hcov with
  | last lo row hmin hmax =>
    intro income hinc
    have hm : wsRowMatches income row = true := by
      simp [wsRowMatches, hmax, hmin, hinc]
    exact ⟨row, List.find?_cons_of_pos _ hm, wsLookup_cons_pos hm⟩
  | cons lo m row next rest hmin hmax hlt hnext htail ih =>
    intro income hinc
    by_cases hle : income ≤ m
    · have hm : wsRowMatches income row = true := by
        simp [wsRowMatches, hmax, hmin, hinc, hle]
      exact ⟨row, List.find?_cons_of_pos _ hm, wsLookup_cons_pos hm⟩
    · have hm : wsRowMatches income row = false := by
        simp [wsRowMatches, hmax, hle]
      obtain ⟨r, hf, hl⟩ := ih income (le_of_lt (lt_of_not_le hle))
      refine ⟨r, ?_, ?_⟩
      · rw [List.find?_cons_of_neg _ (by simp [hm]), hf]
      · rw [wsLookup_cons_neg hm, hl]

/-- Helper: on a covering section list, every bounded row has its min at or
above the lower bound and strictly below its max. -/
theorem wsCovers_get_max {lo : ℚ} {rows : List WorksheetRow} (hcov : WsCovers lo rows) :
    ∀ (k : Nat) (r : WorksheetRow) (m : ℚ), rows[k]? = some r → r.max = some m →
      lo ≤ r.min ∧ r.min < m := by
  induction hcov with
  | last lo row hmin hmax =>
    intro k r m hk hm
    cases k with
    | zero =>
      simp at hk
      subst hk
      rw [hmax] at hm
      exact absurd hm (by simp)
    | succ k => simp at hk
  | cons lo m' row next rest hmin hmax hlt hnext htail ih =>
    intro k r m hk hm
    cases k with
    | zero =>
      simp at hk
      subst hk
      rw [hmax] at hm
      have hmm : m = m' := by
        injection hm with h
        exact h.symm
      subst hmm
      exact ⟨le_of_eq hmin.symm, by rw [hmin]; exact hlt⟩
    | succ k =>
      simp at hk
      obtain ⟨h1, h2⟩ := ih k r m hk hm
      exact ⟨le_of_lt (lt_of_lt_of_le hlt h1), h2⟩

/-- Helper: an income equal to the max of a bounded row of a covering
section list is matched first by exactly that row, and the scan returns
that row's tax (the upper-inclusive boundary rule). -/
theorem wsLookup_boundary {lo : ℚ} {rows : List WorksheetRow} (hcov : WsCovers lo rows) :
    ∀ (n : Nat) (rN : WorksheetRow) (m : ℚ), rows[n]? = some rN → rN.max = some m →
      rows.find? (wsRowMatches m) = some rN ∧
      wsLookup m rows = .ok (round_to_dollars (m * rN.rate - rN.subtract_amount)) := by
  induction hcov with
  | last lo row hmin hmax =>
    intro n rN m hn hm
    cases n with
    | zero =>
      simp at hn
      subst hn
      rw [hmax] at hm
      exact absurd hm (by simp)
    | succ n => simp at hn
  | cons lo m' row next rest hmin hmax hlt hnext htail ih =>
    intro n rN m hn hm
    cases n with
    | zero =>
      simp at hn
      subst hn
      rw [hmax] at hm
      have hmm : m = m' := by
        injection hm with h
        exact h.symm
      subst hmm
      have hmatch : wsRowMatches m row = true := by
        simp [wsRowMatches, hmax, hmin]
        exact le_of_lt hlt
      exact ⟨List.find?_cons_of_pos _ hmatch, wsLookup_cons_pos hmatch⟩
    | succ n =>
      simp at hn
      have hbound := wsCovers_get_max htail n rN m hn hm
      have hmm : m' < m := lt_of_le_of_lt hbound.1 hbound.2
      have hnomatch : wsRowMatches m row = false := by
        simp [wsRowMatches, hmax]
        exact fun _ => hmm
      obtain ⟨hf, hl⟩ := ih n rN m hn hm
      refine ⟨?_, ?_⟩
      · rw [List.find?_cons_of_neg _ (by simp [hnomatch]), hf]
      · rw [wsLookup_cons_neg hnomatch, hl]

/-- C2: on a worksheet whose sections are ordered by min ascending,
contiguous, and cover the interval from min_income upward, every taxable
income at or above min_income is resolved to the first row with
row.min <= income and (row.max null or income <= row.max), returning
round_to_dollars(income * rate - subtract_amount); and an income exactly
equal to the max of row N (which equals the min of row N+1) resolves to
row N, the upper-inclusive boundary rule. -/
theorem tcw_first_match_upper_inclusive (w : TaxComputationWorksheet)
    (hcov : WsCovers w.min_income w.sections) :
    (∀ income : ℚ, w.min_income ≤ income →
      ∃ r, w.sections.find? (wsRowMatches income) = some r ∧
        federal_form_1040_tax_computation_worksheet_tax income w =
          .ok (round_to_dollars (income * r.rate - r.subtract_amount)))
    ∧ (∀ (n : Nat) (rN rN1 : WorksheetRow) (m : ℚ),
        w.sections[n]? = some rN → w.sections[n + 1]? = some rN1 →
        rN.max = some m → rN1.min = m →
        w.sections.find? (wsRowMatches m) = some rN ∧
        federal_form_1040_tax_computation_worksheet_tax m w =
          .ok (round_to_dollars (m * rN.rate - rN.subtract_amount))) := by
  constructor
  · intro income hinc
    obtain ⟨r, hf, hl⟩ := wsLookup_covers hcov income hinc
    refine ⟨r, hf, ?_⟩
    rw [federal_form_1040_tax_computation_worksheet_tax, if_neg (not_lt.mpr hinc)]
    exact hl
  · intro n rN rN1 m hn hn1 hmax hmin1
    have hbound := wsCovers_get_max hcov n rN m hn hmax
    have hlo : w.min_income ≤ m := le_of_lt (lt_of_le_of_lt hbound.1 hbound.2)
    obtain ⟨hf, hl⟩ := wsLookup_boundary hcov n rN m hn hmax
    refine ⟨hf, ?_⟩
    rw [federal_form_1040_tax_computation_worksheet_tax, if_neg (not_lt.mpr hlo)]
    exact hl

/-- Helper: the concrete two-row worksheet satisfies the coverage invariant. -/
theorem exWorksheetCovers : WsCovers exWorksheet.min_income exWorksheet.sections :=
  WsCovers.cons 0 50 ⟨0, some 50, 1/10, 0⟩ ⟨50, none, 1/5, 5⟩ [] rfl rfl
    (by norm_num) rfl (WsCovers.last 50 ⟨50, none, 1/5, 5⟩ rfl rfl)

/-- Witness for C2: income 30 on the concrete worksheet is resolved to a
first-matching row with the worksheet tax formula. -/
theorem tcw_first_match_upper_inclusive_witness :
    ∃ r, exWorksheet.sections.find? (wsRowMatches 30) = some r ∧
      federal_form_1040_tax_computation_worksheet_tax 30 exWorksheet =
        .ok (round_to_dollars (30 * r.rate - r.subtract_amount)) :=
  (tcw_first_match_upper_inclusive exWorksheet exWorksheetCovers).1 30
    (by norm_num [exWorksheet])

/-- Helper: a matching head row is taken by the NY schedule scan. -/
theorem rateScheduleScan_cons_pos {income : ℚ} {row : RateScheduleRow}
    {rest : List RateScheduleRow} (h : rsRowMatches income row = true) :
    rateScheduleScan income (row :: rest) =
      .ok (round_to_dollars (row.base_tax + (income - row.min) * row.rate)) := by
  simp only [rateScheduleScan, h, if_true]

/-- Helper: a non-matching head row is skipped by the NY schedule scan. -/
theorem rateScheduleScan_cons_neg {income : ℚ} {row : RateScheduleRow}
    {rest : List RateScheduleRow} (h : rsRowMatches income row = false) :
    rateScheduleScan income (row :: rest) = rateScheduleScan income rest := by
  simp only [rateScheduleScan, h]
  rfl

/-- Helper: the NY schedule scan errors (with the scanned income) exactly
when no row matches that income. -/
theorem rateScheduleScan_error_iff (income : ℚ) (rows : List RateScheduleRow) :
    rateScheduleScan income rows = .error (.noMatchingBracket income)
      ↔ rows.find? (rsRowMatches income) = none := by
  induction rows with
  | nil => simp [rateScheduleScan, List.find?]
  | cons row rest ih =>
    by_cases h : rsRowMatches income row
    · rw [rateScheduleScan_cons_pos h, List.find?_cons_of_pos _ h]
      simp
    · rw [rateScheduleScan_cons_neg (by simpa using h),
        List.find?_cons_of_neg _ (by simpa using h)]
      exact ih

/-- Helper: the worksheet scan errors (with the scanned income) exactly when
no row matches that income. -/
theorem wsLookup_error_iff (income : ℚ) (rows : List WorksheetRow) :
    wsLookup income rows = .error (.noMatchingBracket income)
      ↔ rows.find? (wsRowMatches income) = none := by
  induction rows with
  | nil => simp [wsLookup, List.find?]
  | cons row rest ih =>
    by_cases h : wsRowMatches income row
    · rw [wsLookup_cons_pos h, List.find?_cons_of_pos _ h]
      simp
    · rw [wsLookup_cons_neg (by simpa using h),
        List.find?_cons_of_neg _ (by simpa using h)]
      exact ih

/-- Counterexample for C5: on the NYS schedule covering all incomes from
zero upward, the input income -5 is covered by no row (every row has
min 0 > -5), yet ny_it201_statement_2_line_3_tax_from_rate_schedule
returns the value 0 instead of raising: the income is clamped to
max(-5, 0) = 0 before the scan, so a below-minimum input income does not
produce an error. -/
theorem ny_schedule_negative_income_cex :
    exFullSchedule.find? (rsRowMatches (-5)) = none
    ∧ ny_it201_statement_2_line_3_tax_from_rate_schedule (-5) exFullSchedule = .ok 0 := by
  constructor
  · rw [exFullSchedule, List.find?_cons_of_neg _ (by norm_num [rsRowMatches])]
    rfl
  · have hmax : max (-5 : ℚ) 0 = 0 := by norm_num
    have h : rsRowMatches 0 ⟨0, none, 0, 1/10⟩ = true := by
      norm_num [rsRowMatches]
    rw [ny_it201_statement_2_line_3_tax_from_rate_schedule, hmax, exFullSchedule,
      rateScheduleScan_cons_pos h]
    norm_num [round_to_dollars]

/-- C5 amended: the federal worksheet is a hard stop — an income below
min_income errors carrying both bounds, and at or above min_income it
errors with the offending income exactly when no section row matches it;
the NYS and NYC schedule lookups first clamp the income at zero and then
error, carrying the clamped income, exactly when no row matches the
clamped income (so a negative input whose clamped value is covered
returns a tax value rather than an error). -/
theorem rate_schedule_error_semantics :
    (∀ (income : ℚ) (w : TaxComputationWorksheet), income < w.min_income →
      federal_form_1040_tax_computation_worksheet_tax income w =
        .error (.belowWorksheetMinimum w.min_income income))
    ∧ (∀ (income : ℚ) (w : TaxComputationWorksheet), w.min_income ≤ income →
      (federal_form_1040_tax_computation_worksheet_tax income w =
          .error (.noMatchingBracket income)
        ↔ w.sections.find? (wsRowMatches income) = none))
    ∧ (∀ (line_38 : ℚ) (schedule : List RateScheduleRow),
      ny_it201_statement_2_line_3_tax_from_rate_schedule line_38 schedule =
          .error (.noMatchingBracket (max line_38 0))
        ↔ schedule.find? (rsRowMatches (max line_38 0)) = none)
    ∧ (∀ (line_47 : ℚ) (schedule : List RateScheduleRow),
      ny_it201_line_47a_nyc_resident_tax line_47 schedule =
          .error (.noMatchingBracket (max line_47 0))
        ↔ schedule.find? (rsRowMatches (max line_47 0)) = none) := by
  refine ⟨?_, ?_, ?_, ?_⟩
  · intro income w h
    rw [federal_form_1040_tax_computation_worksheet_tax, if_pos h]
  · intro income w h
    rw [federal_form_1040_tax_computation_worksheet_tax, if_neg (not_lt.mpr h)]
    exact wsLookup_error_iff income w.sections
  · intro line_38 schedule
    rw [ny_it201_statement_2_line_3_tax_from_rate_schedule]
    exact rateScheduleScan_error_iff (max line_38 0) schedule
  · intro line_47 schedule
    rw [ny_it201_line_47a_nyc_resident_tax]
    exact rateScheduleScan_error_iff (max line_47 0) schedule

/-- Witness for C5 amended: income -5 on the concrete worksheet errors with
the below-minimum hard stop carrying the offending income. -/
theorem rate_schedule_error_semantics_witness :
    federal_form_1040_tax_computation_worksheet_tax (-5) exWorksheet =
      .error (.belowWorksheetMinimum exWorksheet.min_income (-5)) :=
  rate_schedule_error_semantics.1 (-5) exWorksheet (by norm_num [exWorksheet])

/-- Counterexample for C3: with the 0.9 percent / 200000 policy, W-2
Medicare wages of 300000 (strictly above the threshold) and non-negative SE
earnings of 100000, the SE-sourced Part II tax is 900, not zero: once W-2
wages exceed the threshold the remaining threshold is zero, so every SE
dollar is taxed, rather than the SE portion vanishing. -/
theorem form_8959_se_portion_nonzero_cex :
    exAmtPolicy.threshold < 300000 ∧ (0 : ℚ) ≤ 100000
    ∧ form_8959_part2_tax 300000 100000 exAmtPolicy = 900
    ∧ (900 : ℚ) ≠ 0 := by
  refine ⟨by norm_num [exAmtPolicy], by norm_num, ?_, by norm_num⟩
  rw [form_8959_part2_tax, form_8959_remaining_threshold]
  norm_num [exAmtPolicy, max_def, round_to_dollars]

/-- C3 amended: Form 8959 shares one threshold sequentially.  For W-2
Medicare wages strictly above the threshold the remaining threshold is
zero, so the SE-sourced Part II tax equals round_to_dollars(SE earnings
times rate) — all SE earnings are taxed, and the Part II tax is zero only
when the SE earnings are zero; for W-2 wages of zero the SE income uses the
entire threshold: Part II tax equals round_to_dollars(max(0, SE earnings -
threshold) times rate).  Line 18 is the sum of the Part I and Part II
taxes. -/
theorem form_8959_threshold_sharing (p : AdditionalMedicareTaxPolicy)
    (hth : 0 ≤ p.threshold) :
    (∀ w2 se : ℚ, p.threshold < w2 →
      form_8959_remaining_threshold w2 p = 0
      ∧ (0 ≤ se → form_8959_part2_tax w2 se p = round_to_dollars (se * p.rate)))
    ∧ (∀ se : ℚ, form_8959_part2_tax 0 se p =
        round_to_dollars (max 0 (se - p.threshold) * p.rate))
    ∧ (∀ w2 se : ℚ, federal_form_8959_line_18_additional_medicare_tax w2 se p =
        form_8959_part1_tax w2 p + form_8959_part2_tax w2 se p) := by
  refine ⟨?_, ?_, ?_⟩
  · intro w2 se hw2
    have hrem : form_8959_remaining_threshold w2 p = 0 := by
      rw [form_8959_remaining_threshold]
      exact max_eq_left (by linarith)
    refine ⟨hrem, ?_⟩
    intro hse
    rw [form_8959_part2_tax, hrem, sub_zero, max_eq_right hse]
  · intro se
    have hrem : form_8959_remaining_threshold 0 p = p.threshold := by
      rw [form_8959_remaining_threshold, sub_zero]
      exact max_eq_right hth
    rw [form_8959_part2_tax, hrem]
  · intro w2 se
    rw [federal_form_8959_line_18_additional_medicare_tax, add_zero]

/-- Witness for C3 amended: at the concrete policy, W-2 wages 300000
exhaust the threshold and SE earnings 100000 are taxed in full. -/
theorem form_8959_threshold_sharing_witness :
    form_8959_remaining_threshold 300000 exAmtPolicy = 0
    ∧ form_8959_part2_tax 300000 100000 exAmtPolicy =
        round_to_dollars ((100000 : ℚ) * exAmtPolicy.rate) :=
  ⟨((form_8959_threshold_sharing exAmtPolicy (by norm_num [exAmtPolicy])).1 300000 100000
      (by norm_num [exAmtPolicy])).1,
   ((form_8959_threshold_sharing exAmtPolicy (by norm_num [exAmtPolicy])).1 300000 100000
      (by norm_num [exAmtPolicy])).2 (by norm_num)⟩

/-- C6: while checks are enabled, when the dotted path resolves through the
expected tree to a value, _check_compute_line raises exactly when the
actual value differs from that value (exact decimal equality, no
tolerance), and the raised error's message carries the context label; when
the path does not resolve, the check returns silently; while checks are
disabled it never raises. -/
theorem check_compute_line_semantics (st : ComputeChecksState) (path : List String)
    (actual : ℚ) :
    (∀ v : ℚ, _expected_decimal_for_path st path = some v →
      (actual = v → _check_compute_line st path actual = .ok ())
      ∧ (actual ≠ v →
          _check_compute_line st path actual = .error ⟨st.context, path, v, actual⟩
          ∧ ∀ c : String, st.context = some c → c ≠ "" →
              ∃ s : String, mismatchMessage ⟨st.context, path, v, actual⟩ =
                "[" ++ c ++ "] " ++ s))
    ∧ (_expected_decimal_for_path st path = none →
        _check_compute_line st path actual = .ok ())
    ∧ (st.enabled = false → _check_compute_line st path actual = .ok ()) := by
  refine ⟨?_, ?_, ?_⟩
  · intro v hv
    constructor
    · intro he
      rw [_check_compute_line, hv]
      simp [he]
    · intro hne
      constructor
      · rw [_check_compute_line, hv]
        simp [hne]
      · intro c hc hcne
        refine ⟨String.intercalate "." path ++ ": expected " ++ toString v
          ++ ", got " ++ toString actual, ?_⟩
        simp only [mismatchMessage, hc, if_neg hcne]
        simp [String.append_assoc]
  · intro h
    rw [_check_compute_line, h]
  · intro h
    have hnone : _expected_decimal_for_path st path = none := by
      rw [_expected_decimal_for_path, h]
    rw [_check_compute_line, hnone]

/-- Witness for C6: on the concrete enabled state, the recorded value 5
against the actual value 6 raises with the context in the message. -/
theorem check_compute_line_semantics_witness :
    _check_compute_line exState exPath 6 = .error ⟨exState.context, exPath, 5, 6⟩
    ∧ ∃ s : String, mismatchMessage ⟨exState.context, exPath, 5, 6⟩ =
        "[" ++ "2024" ++ "] " ++ s :=
  have h := ((check_compute_line_semantics exState exPath 6).1 5 (by rfl)).2 (by norm_num)
  ⟨h.1, h.2 "2024" rfl (by decide)⟩

/-- C7: the Social Security portion of SE tax is capped — for every
non-negative earnings amount it is at most round_to_dollars(wage_base
times rate) — while the Medicare portion has no ceiling and equals
round_to_dollars(earnings times medicare_rate) for every earnings amount. -/
theorem se_tax_ceiling (p : SelfEmploymentTaxPolicy)
    (hr : 0 ≤ p.social_security_rate) :
    (∀ e : ℚ, 0 ≤ e →
      federal_schedule_se_line_10_social_security_tax e p ≤
        round_to_dollars (p.social_security_wage_base * p.social_security_rate))
    ∧ ∀ e : ℚ, federal_schedule_se_line_11_medicare_tax e p =
        round_to_dollars (e * p.medicare_rate) := by
  constructor
  · intro e he
    rw [federal_schedule_se_line_10_social_security_tax]
    exact round_to_dollars_mono
      (mul_le_mul_of_nonneg_right (min_le_right e p.social_security_wage_base) hr)
  · intro e
    rfl

/-- Witness for C7: earnings of 500000, far above the wage base, stay below
the cap at the concrete 2024 policy. -/
theorem se_tax_ceiling_witness :
    federal_schedule_se_line_10_social_security_tax 500000 exSePolicy ≤
      round_to_dollars (exSePolicy.social_security_wage_base
        * exSePolicy.social_security_rate) :=
  (se_tax_ceiling exSePolicy (by norm_num [exSePolicy])).1 500000 (by norm_num)

/-- C8: IT-201 line 38 equals exactly line 35 minus line 36, and line 36
equals exactly dependents count times the policy exemption amount: no
rounding or flooring in either. -/
theorem ny_dependency_chain_exact :
    (∀ line_35 line_36 : ℚ,
      ny_it201_line_38_ny_taxable_income line_35 line_36 = line_35 - line_36)
    ∧ ∀ dependents_count exemption_amount : ℚ,
      ny_it201_line_36_dependent_exemptions dependents_count exemption_amount =
        dependents_count * exemption_amount :=
  ⟨fun _ _ => rfl, fun _ _ => rfl⟩

/-- C9: both marginal reporters validate delta first — any delta at or
below zero yields the validation error, uniformly in the pipelines, the
inputs and the policy (so no perturbed copy is built and no pipeline is
invoked); any strictly positive delta passes validation and the reporter
is its main per-fact (respectively per-tag) loop. -/
theorem marginal_delta_validation {P : Type} (compute_federal : Pipeline P)
    (state_totals : List (Pipeline P)) (inputs : InputsBySource) (policy : P)
    (delta : ℚ) :
    (delta ≤ 0 →
      marginal_rate_table_by_input compute_federal state_totals inputs policy delta =
        .error .invalidDelta
      ∧ marginal_rate_table_by_tag compute_federal state_totals inputs policy delta =
        .error .invalidDelta)
    ∧ (0 < delta →
      marginal_rate_table_by_input compute_federal state_totals inputs policy delta =
        marginal_by_input_rows compute_federal state_totals inputs policy delta
      ∧ marginal_rate_table_by_tag compute_federal state_totals inputs policy delta =
        marginal_by_tag_rows compute_federal state_totals inputs policy delta) := by
  constructor
  · intro h
    constructor
    · rw [marginal_rate_table_by_input, if_pos h]
    · rw [marginal_rate_table_by_tag, if_pos h]
  · intro h
    constructor
    · rw [marginal_rate_table_by_input, if_neg (not_le.mpr h)]
    · rw [marginal_rate_table_by_tag, if_neg (not_le.mpr h)]

/-- Witness for C9: delta -1 is rejected by both reporters on concrete
trivial arguments. -/
theorem marginal_delta_validation_witness :
    marginal_rate_table_by_input zeroPipeline [] [] () (-1) = .error .invalidDelta
    ∧ marginal_rate_table_by_tag zeroPipeline [] [] () (-1) = .error .invalidDelta :=
  (marginal_delta_validation zeroPipeline [] [] () (-1)).1 (by norm_num)

/-- C10: Schedule SE line 6 returns a non-positive line-2 profit unchanged
(no earnings factor, no rounding); the 0.9235 factor and the rounding
apply only to strictly positive line-2 profit. -/
theorem se_line_6_nonpositive_passthrough (p : SelfEmploymentTaxPolicy) :
    (∀ line_2 : ℚ, line_2 ≤ 0 →
      federal_schedule_se_line_6_total_se_earnings line_2 p = line_2)
    ∧ ∀ line_2 : ℚ, 0 < line_2 →
      federal_schedule_se_line_6_total_se_earnings line_2 p =
        round_to_dollars (line_2 * p.earnings_factor) := by
  constructor
  · intro x hx
    rw [federal_schedule_se_line_6_total_se_earnings, if_neg (not_lt.mpr hx)]
  · intro x hx
    rw [federal_schedule_se_line_6_total_se_earnings, if_pos hx]

/-- Witness for C10: a line-2 loss of 2500 passes through untouched. -/
theorem se_line_6_nonpositive_passthrough_witness :
    federal_schedule_se_line_6_total_se_earnings (-2500) exSePolicy = -2500 :=
  (se_line_6_nonpositive_passthrough exSePolicy).1 (-2500) (by norm_num)

end Tax
